import Mathlib

set_option maxRecDepth 8000

/-!
Verification of the pos-qr-display firmware (ESP32-S3 point-of-sale
display appliance) against its natural-language specification.

The development shallowly embeds the firmware sources:

* `src/firmware/drivers/lcd_st7701.c`  — ST7701S bring-up script, RGB
  panel configuration, VSYNC-synchronised LVGL flush callback;
* `src/firmware/services/wifi_service.c` — WiFi event handler with a
  bounded reconnect counter;
* `src/firmware/services/mqtt_service.c` — MQTT event handler guarding
  the shared QR payload;
* `src/firmware/drivers/touch_gt911.c` — GT911 LVGL pointer read
  callback;
* `src/firmware/ui/ui.c` — CRC-16/CCITT-FALSE and the static VietQR
  payload;
* `src/firmware/main/app_config.h` — resolution constants.

Pure computations become Lean functions on `Nat` / `List Nat` (machine
integers are reduced modulo 2^w where the C type wraps); event-driven
mutable state becomes explicit state passing over event lists; calls
into vendor SDK functions (GPIO writes, semaphore operations, LVGL
entry points) become entries of explicit action traces.
-/

/- ════════════════════════════════════════════════════════════════════
   app_config.h
   ════════════════════════════════════════════════════════════════════ -/

/-- Display width in pixels, `APP_LCD_H_RES` of app_config.h. -/
def APP_LCD_H_RES : Nat := 480

/-- Display height in pixels, `APP_LCD_V_RES` of app_config.h. -/
def APP_LCD_V_RES : Nat := 480

/-- WiFi reconnect budget, `APP_WIFI_MAX_RETRY` of app_config.h. -/
def APP_WIFI_MAX_RETRY : Nat := 10

/- ════════════════════════════════════════════════════════════════════
   lcd_st7701.c — 3-wire SPI frames and the ST7701S init script
   ════════════════════════════════════════════════════════════════════ -/

/-- One 9-bit SPI frame produced by `spi_write_9bit`: bit 8 is the DC
bit (`false` = command, `true` = data), bits 7..0 the payload byte. -/
structure Frame where
  dc  : Bool
  val : Nat
deriving DecidableEq, Repr

/-- Observable action of `st7701_panel_init`: a 9-bit SPI frame on the
bit-banged bus, or a `vTaskDelay` converted to milliseconds. -/
inductive InitAction where
  | frame   (f : Frame)
  | delayMs (ms : Nat)
deriving DecidableEq, Repr

/-- Embedding of `spi_write_9bit(bool dc, uint8_t val)`: the GPIO
bit-bang transmits exactly one 9-bit frame whose payload is the 8-bit
argument (reduced mod 256 as `uint8_t`). -/
def spi_write_9bit (dc : Bool) (val : Nat) : List InitAction :=
  [.frame ⟨dc, val % 256⟩]

/-- Embedding of `st7701_cmd`: one command frame (DC = 0). -/
def st7701_cmd (c : Nat) : List InitAction := spi_write_9bit false c

/-- Embedding of `st7701_data`: one data frame (DC = 1). -/
def st7701_data (d : Nat) : List InitAction := spi_write_9bit true d

/-- Embedding of `vTaskDelay(pdMS_TO_TICKS(ms))` inside the init
script. -/
def initDelay (ms : Nat) : List InitAction := [.delayMs ms]

/-- Embedding of `st7701_panel_init` (lcd_st7701.c lines 166-290): the
function takes no argument and reads no mutable state, so its entire
observable behaviour is this constant action trace, transcribed call by
call from the source. -/
def st7701_panel_init : List InitAction :=
  -- Software reset
  st7701_cmd 0x01 ++ initDelay 120 ++
  -- Command2 BK0 (timing + gamma)
  st7701_cmd 0xFF ++
  st7701_data 0x77 ++ st7701_data 0x01 ++ st7701_data 0x00 ++
  st7701_data 0x00 ++ st7701_data 0x10 ++
  st7701_cmd 0xC0 ++ st7701_data 0x3B ++ st7701_data 0x00 ++
  st7701_cmd 0xC1 ++ st7701_data 0x0D ++ st7701_data 0x02 ++
  st7701_cmd 0xC2 ++ st7701_data 0x31 ++ st7701_data 0x05 ++
  st7701_cmd 0xCD ++ st7701_data 0x00 ++
  -- Positive gamma (16 bytes)
  st7701_cmd 0xB0 ++
  st7701_data 0x00 ++ st7701_data 0x11 ++ st7701_data 0x18 ++ st7701_data 0x0E ++
  st7701_data 0x11 ++ st7701_data 0x06 ++ st7701_data 0x07 ++ st7701_data 0x08 ++
  st7701_data 0x07 ++ st7701_data 0x22 ++ st7701_data 0x04 ++ st7701_data 0x12 ++
  st7701_data 0x0F ++ st7701_data 0xAA ++ st7701_data 0x31 ++ st7701_data 0x18 ++
  -- Negative gamma (16 bytes)
  st7701_cmd 0xB1 ++
  st7701_data 0x00 ++ st7701_data 0x11 ++ st7701_data 0x19 ++ st7701_data 0x0E ++
  st7701_data 0x12 ++ st7701_data 0x07 ++ st7701_data 0x08 ++ st7701_data 0x08 ++
  st7701_data 0x08 ++ st7701_data 0x22 ++ st7701_data 0x04 ++ st7701_data 0x11 ++
  st7701_data 0x11 ++ st7701_data 0xA9 ++ st7701_data 0x32 ++ st7701_data 0x18 ++
  -- Command2 BK1 (voltage)
  st7701_cmd 0xFF ++
  st7701_data 0x77 ++ st7701_data 0x01 ++ st7701_data 0x00 ++
  st7701_data 0x00 ++ st7701_data 0x11 ++
  st7701_cmd 0xB0 ++ st7701_data 0x60 ++
  st7701_cmd 0xB1 ++ st7701_data 0x32 ++
  st7701_cmd 0xB2 ++ st7701_data 0x07 ++
  st7701_cmd 0xB3 ++ st7701_data 0x80 ++
  st7701_cmd 0xB5 ++ st7701_data 0x49 ++
  st7701_cmd 0xB7 ++ st7701_data 0x85 ++
  st7701_cmd 0xB8 ++ st7701_data 0x21 ++
  st7701_cmd 0xC1 ++ st7701_data 0x78 ++
  st7701_cmd 0xC2 ++ st7701_data 0x78 ++
  st7701_cmd 0xD0 ++ st7701_data 0x88 ++
  initDelay 100 ++
  -- Gate EQ / Source EQ
  st7701_cmd 0xE0 ++
  st7701_data 0x00 ++ st7701_data 0x1B ++ st7701_data 0x02 ++
  st7701_cmd 0xE1 ++
  st7701_data 0x08 ++ st7701_data 0xA0 ++ st7701_data 0x00 ++ st7701_data 0x00 ++
  st7701_data 0x07 ++ st7701_data 0xA0 ++ st7701_data 0x00 ++ st7701_data 0x00 ++
  st7701_data 0x00 ++ st7701_data 0x44 ++ st7701_data 0x44 ++
  st7701_cmd 0xE2 ++
  st7701_data 0x11 ++ st7701_data 0x11 ++ st7701_data 0x44 ++ st7701_data 0x44 ++
  st7701_data 0xED ++ st7701_data 0xA0 ++ st7701_data 0x00 ++ st7701_data 0x00 ++
  st7701_data 0xEC ++ st7701_data 0xA0 ++ st7701_data 0x00 ++ st7701_data 0x00 ++
  st7701_cmd 0xE3 ++
  st7701_data 0x00 ++ st7701_data 0x00 ++ st7701_data 0x11 ++ st7701_data 0x11 ++
  st7701_cmd 0xE4 ++
  st7701_data 0x44 ++ st7701_data 0x44 ++
  st7701_cmd 0xE5 ++
  st7701_data 0x0A ++ st7701_data 0xE9 ++ st7701_data 0xD8 ++ st7701_data 0xA0 ++
  st7701_data 0x0C ++ st7701_data 0xEB ++ st7701_data 0xD8 ++ st7701_data 0xA0 ++
  st7701_data 0x0E ++ st7701_data 0xED ++ st7701_data 0xD8 ++ st7701_data 0xA0 ++
  st7701_data 0x10 ++ st7701_data 0xEF ++ st7701_data 0xD8 ++ st7701_data 0xA0 ++
  st7701_cmd 0xE6 ++
  st7701_data 0x00 ++ st7701_data 0x00 ++ st7701_data 0x11 ++ st7701_data 0x11 ++
  st7701_cmd 0xE7 ++
  st7701_data 0x44 ++ st7701_data 0x44 ++
  st7701_cmd 0xE8 ++
  st7701_data 0x09 ++ st7701_data 0xE8 ++ st7701_data 0xD8 ++ st7701_data 0xA0 ++
  st7701_data 0x0B ++ st7701_data 0xEA ++ st7701_data 0xD8 ++ st7701_data 0xA0 ++
  st7701_data 0x0D ++ st7701_data 0xEC ++ st7701_data 0xD8 ++ st7701_data 0xA0 ++
  st7701_data 0x0F ++ st7701_data 0xEE ++ st7701_data 0xD8 ++ st7701_data 0xA0 ++
  st7701_cmd 0xEB ++
  st7701_data 0x02 ++ st7701_data 0x00 ++ st7701_data 0xE4 ++ st7701_data 0xE4 ++
  st7701_data 0x88 ++ st7701_data 0x00 ++ st7701_data 0x40 ++
  st7701_cmd 0xEC ++
  st7701_data 0x3C ++ st7701_data 0x00 ++
  st7701_cmd 0xED ++
  st7701_data 0xAB ++ st7701_data 0x89 ++ st7701_data 0x76 ++ st7701_data 0x54 ++
  st7701_data 0x02 ++ st7701_data 0xFF ++ st7701_data 0xFF ++ st7701_data 0xFF ++
  st7701_data 0xFF ++ st7701_data 0xFF ++ st7701_data 0xFF ++ st7701_data 0x20 ++
  st7701_data 0x45 ++ st7701_data 0x67 ++ st7701_data 0x98 ++ st7701_data 0xBA ++
  -- Command2 BK3 — VCOM calibration
  st7701_cmd 0xFF ++
  st7701_data 0x77 ++ st7701_data 0x01 ++ st7701_data 0x00 ++
  st7701_data 0x00 ++ st7701_data 0x13 ++
  st7701_cmd 0xE5 ++ st7701_data 0xE4 ++
  -- Exit Command2
  st7701_cmd 0xFF ++
  st7701_data 0x77 ++ st7701_data 0x01 ++ st7701_data 0x00 ++
  st7701_data 0x00 ++ st7701_data 0x00 ++
  -- Standard commands: INVOFF, COLMOD RGB565, Sleep Out, Display ON
  st7701_cmd 0x20 ++
  st7701_cmd 0x3A ++ st7701_data 0x50 ++
  st7701_cmd 0x11 ++ initDelay 120 ++
  st7701_cmd 0x29 ++ initDelay 20

/-- The SPI frames of the init script, with the delays dropped. -/
def st7701_init_frames : List Frame :=
  st7701_panel_init.filterMap fun a =>
    match a with
    | .frame f => some f
    | .delayMs _ => none

/-- The five-frame Command2 bank-select sequence `0xFF 0x77 0x01 0x00
0x00 bk` that the script uses to enter bank `bk` (`0x00` exits
Command2). -/
def bkSelect (bk : Nat) : List Frame :=
  [⟨false, 0xFF⟩, ⟨true, 0x77⟩, ⟨true, 0x01⟩, ⟨true, 0x00⟩,
   ⟨true, 0x00⟩, ⟨true, bk % 256⟩]

/-- Tests whether a frame is the `0xFF` (Command2 bank select) command
frame. -/
def isBankSwitchCmd (f : Frame) : Bool :=
  !f.dc && f.val == 0xFF

/- ════════════════════════════════════════════════════════════════════
   lcd_st7701.c — RGB panel configuration (lcd_st7701_init)
   ════════════════════════════════════════════════════════════════════ -/

/-- Embedding of the `timings` member of
`esp_lcd_rgb_panel_config_t`. -/
structure RgbTimings where
  pclk_hz           : Nat
  h_res             : Nat
  v_res             : Nat
  hsync_back_porch  : Nat
  hsync_front_porch : Nat
  hsync_pulse_width : Nat
  vsync_back_porch  : Nat
  vsync_front_porch : Nat
  vsync_pulse_width : Nat
  pclk_active_neg   : Bool
deriving DecidableEq, Repr

/-- Embedding of the fields of `esp_lcd_rgb_panel_config_t` that the
firmware sets (pin numbers are omitted: they are board wiring, not
behaviour). -/
structure RgbPanelConfig where
  timings               : RgbTimings
  data_width            : Nat
  bits_per_pixel        : Nat
  num_fbs               : Nat
  bounce_buffer_size_px : Nat
  psram_trans_align     : Nat
  fb_in_psram           : Bool
deriving DecidableEq, Repr

/-- Bounce buffer height in lines, `BOUNCE_BUF_LINES` of
lcd_st7701.c. -/
def BOUNCE_BUF_LINES : Nat := 20

/-- The `rgb_cfg` structure built by `lcd_st7701_init` (lcd_st7701.c
lines 324-356), field values transcribed from the source. -/
def rgb_cfg : RgbPanelConfig :=
  { timings :=
      { pclk_hz           := 12 * 1000 * 1000
      , h_res             := APP_LCD_H_RES
      , v_res             := APP_LCD_V_RES
      , hsync_back_porch  := 50
      , hsync_front_porch := 50
      , hsync_pulse_width := 10
      , vsync_back_porch  := 20
      , vsync_front_porch := 20
      , vsync_pulse_width := 2
      , pclk_active_neg   := true }
  , data_width            := 16
  , bits_per_pixel        := 16
  , num_fbs               := 2
  , bounce_buffer_size_px := APP_LCD_H_RES * BOUNCE_BUF_LINES
  , psram_trans_align     := 64
  , fb_in_psram           := true }

/- ════════════════════════════════════════════════════════════════════
   lcd_st7701.c — LVGL registration and the VSYNC-synchronised flush
   ════════════════════════════════════════════════════════════════════ -/

/-- Observable actions of `lvgl_flush_cb`: the `esp_lcd_panel_draw_bitmap`
call (with its four area coordinates), the `xSemaphoreTake` on the
VSYNC binary semaphore `s_vsync_sem` (with its tick timeout in ms),
and the `lv_disp_flush_ready` notification back to LVGL. -/
inductive FlushAction where
  | drawBitmap (x0 y0 x1 y1 : Nat)
  | vsyncSemTake (timeout_ms : Nat)
  | flushReady
deriving DecidableEq, Repr

/-- Embedding of `lvgl_flush_cb` (lcd_st7701.c lines 412-423): the body
is three straight-line calls, so for every invocation — whatever the
area and colour pointer LVGL passes — the callback performs exactly
this action sequence. -/
def lvgl_flush_cb : List FlushAction :=
  [.drawBitmap 0 0 APP_LCD_H_RES APP_LCD_V_RES,
   .vsyncSemTake 100,
   .flushReady]

/-- Observable action of the `on_vsync` ISR callback. -/
inductive VsyncAction where
  | vsyncSemGiveFromISR
deriving DecidableEq, Repr

/-- Embedding of `on_vsync` (lcd_st7701.c lines 394-401): every VSYNC
interrupt gives the binary semaphore `s_vsync_sem` exactly once. -/
def on_vsync : List VsyncAction := [.vsyncSemGiveFromISR]

/-- Embedding of the LVGL display driver configuration built by
`lcd_st7701_register_lvgl` (lcd_st7701.c lines 425-470).
`draw_buf_uses_both_fbs` records that `lv_disp_draw_buf_init` is passed
both PSRAM framebuffer pointers `fb0` and `fb1` obtained from
`esp_lcd_rgb_panel_get_frame_buffer(panel, 2, ...)`. -/
structure LvDispDrvConfig where
  hor_res               : Nat
  ver_res               : Nat
  direct_mode           : Bool
  draw_buf_px           : Nat
  draw_buf_uses_both_fbs : Bool
deriving DecidableEq, Repr

/-- The `disp_drv` configuration registered with LVGL, transcribed from
`lcd_st7701_register_lvgl`. -/
def disp_drv : LvDispDrvConfig :=
  { hor_res                := APP_LCD_H_RES
  , ver_res                := APP_LCD_V_RES
  , direct_mode            := true
  , draw_buf_px            := APP_LCD_H_RES * APP_LCD_V_RES
  , draw_buf_uses_both_fbs := true }

/- ════════════════════════════════════════════════════════════════════
   wifi_service.c — event-driven connection state
   ════════════════════════════════════════════════════════════════════ -/

/-- The events `wifi_event_handler` distinguishes: the two
`WIFI_EVENT`s it switches on, the `IP_EVENT_STA_GOT_IP` case, and
`wifiOther` for every other event delivered to the handler (which falls
through the `default:` branch). -/
inductive WifiEvent where
  | staStart
  | staDisconnected
  | gotIp
  | wifiOther
deriving DecidableEq, Repr

/-- The mutable state of wifi_service.c: `s_connected` and
`s_retry_count`. -/
structure WifiState where
  s_connected   : Bool
  s_retry_count : Nat
deriving DecidableEq, Repr

/-- Zero-initialised static state of wifi_service.c. -/
def wifiInitState : WifiState := { s_connected := false, s_retry_count := 0 }

/-- Embedding of `wifi_event_handler` (wifi_service.c lines 35-70).
The returned `Bool` records whether the handler called
`esp_wifi_connect()` during this event. -/
def wifi_event_handler : WifiState → WifiEvent → WifiState × Bool
  | s, .staStart        => (s, true)
  | s, .staDisconnected =>
      if s.s_retry_count < APP_WIFI_MAX_RETRY then
        ({ s_connected := false, s_retry_count := s.s_retry_count + 1 }, true)
      else
        ({ s with s_connected := false }, false)
  | _, .gotIp           => ({ s_connected := true, s_retry_count := 0 }, false)
  | s, .wifiOther       => (s, false)

/-- State after the handler has processed a list of events, oldest
first, starting from the zero-initialised statics. -/
def wifiRun (evs : List WifiEvent) : WifiState :=
  evs.foldl (fun s e => (wifi_event_handler s e).1) wifiInitState

/-- Embedding of `wifi_service_is_connected` (wifi_service.c lines
125-128). -/
def wifi_service_is_connected (s : WifiState) : Bool := s.s_connected

/- ════════════════════════════════════════════════════════════════════
   mqtt_service.c — JSON model, QR payload, event handler
   ════════════════════════════════════════════════════════════════════ -/

/-- ASCII bytes of a Lean string literal; used to write C string
literals and message bodies as byte lists. -/
def strBytes (s : String) : List Nat := s.data.map Char.toNat

/-- Value of a JSON object member, as far as `handle_qr_show` inspects
it through cJSON: either a string value (its bytes, NUL-free as cJSON
C strings are) or any non-string JSON value. -/
inductive JsonVal where
  | str (s : List Nat)
  | nonString
deriving DecidableEq, Repr

/-- Result of a successful `cJSON_ParseWithLength`: an object with an
ordered member list, or any non-object JSON document.  cJSON is a
vendor library, so a message body is abstracted to its parse result:
`Option JsonDoc`, with `none` for bodies that fail to parse. -/
inductive JsonDoc where
  | obj (members : List (List Nat × JsonVal))
  | nonObj
deriving DecidableEq, Repr

/-- Embedding of `cJSON_GetObjectItemCaseSensitive`: the first member
whose name equals `key` byte for byte, if any. -/
def cJSON_GetObjectItemCaseSensitive (root : JsonDoc) (key : List Nat) :
    Option JsonVal :=
  match root with
  | .obj members => (members.find? fun m => m.1 == key).map (·.2)
  | .nonObj => none

/-- Embedding of `json_str` (mqtt_service.c lines 39-49): if the member
exists and is a string, `strncpy` it into a `dst_size` buffer and force
a NUL at index `dst_size - 1` — i.e. keep at most `dst_size - 1` bytes;
otherwise the destination becomes the empty string. -/
def json_str (root : JsonDoc) (key : List Nat) (dst_size : Nat) : List Nat :=
  match cJSON_GetObjectItemCaseSensitive root key with
  | some (.str s) => s.take (dst_size - 1)
  | _ => []

/-- Buffer size `QR_DATA_MAX` of mqtt_service.h. -/
def QR_DATA_MAX : Nat := 512

/-- Buffer size `QR_AMOUNT_MAX` of mqtt_service.h. -/
def QR_AMOUNT_MAX : Nat := 32

/-- Buffer size `QR_DESC_MAX` of mqtt_service.h. -/
def QR_DESC_MAX : Nat := 64

/-- Embedding of `qr_payload_t` (mqtt_service.h): the three C string
fields, each represented by its bytes up to the NUL. -/
structure QrPayload where
  data   : List Nat
  amount : List Nat
  desc   : List Nat
deriving DecidableEq, Repr

/-- Modelled from the spec: the topic string `APP_MQTT_TOPIC_QR_SHOW`.
Its `#define` lives in `secrets/secrets.h`, which is not among the
staged sources; mqtt_service.h and the header comment of mqtt_service.c
document the topic as `pos/qr/show`. -/
def APP_MQTT_TOPIC_QR_SHOW : List Nat := strBytes "pos/qr/show"

/-- Modelled from the spec: the topic string `APP_MQTT_TOPIC_QR_HIDE`
(`pos/qr/hide`), whose `#define` lives in the unstaged
`secrets/secrets.h`. -/
def APP_MQTT_TOPIC_QR_HIDE : List Nat := strBytes "pos/qr/hide"

/-- Modelled from the spec: the topic string `APP_MQTT_TOPIC_RESULT`
(`pos/qr/result`), whose `#define` lives in the unstaged
`secrets/secrets.h`. -/
def APP_MQTT_TOPIC_RESULT : List Nat := strBytes "pos/qr/result"

/-- Embedding of `topic_eq` (mqtt_service.c lines 33-37): length check
plus `memcmp` is byte-list equality. -/
def topic_eq (topic expected : List Nat) : Bool := topic == expected

/-- The shared state of mqtt_service.c: the payload `s_qr` and the flag
`s_has_qr` (written by the MQTT task, read by the UI task). -/
structure MqttState where
  s_qr     : QrPayload
  s_has_qr : Bool
deriving DecidableEq, Repr

/-- Zero-initialised statics of mqtt_service.c: empty strings, flag
clear. -/
def mqttInitState : MqttState :=
  { s_qr := { data := [], amount := [], desc := [] }, s_has_qr := false }

/-- Member name `qr_data`. -/
def keyQrData : List Nat := strBytes "qr_data"

/-- Member name `amount`. -/
def keyAmount : List Nat := strBytes "amount"

/-- Member name `desc`. -/
def keyDesc : List Nat := strBytes "desc"

/-- The temporary `qr_payload_t tmp` that `handle_qr_show` parses out
of a JSON document before entering the critical section. -/
def parseQrPayload (root : JsonDoc) : QrPayload :=
  { data   := json_str root keyQrData QR_DATA_MAX
  , amount := json_str root keyAmount QR_AMOUNT_MAX
  , desc   := json_str root keyDesc   QR_DESC_MAX }

/-- Embedding of `handle_qr_show` (mqtt_service.c lines 53-83).  The
body is abstracted to its cJSON parse result (`none` = parse failure).
On parse failure or an empty/missing/non-string `qr_data` the shared
state is untouched; otherwise payload and flag are stored together
inside the `s_lock` critical section. -/
def handle_qr_show (st : MqttState) (body : Option JsonDoc) : MqttState :=
  match body with
  | none => st
  | some root =>
      let tmp := parseQrPayload root
      if tmp.data = [] then st
      else { s_qr := tmp, s_has_qr := true }

/-- Embedding of `handle_qr_hide` (mqtt_service.c lines 85-92). -/
def handle_qr_hide (st : MqttState) : MqttState :=
  { st with s_has_qr := false }

/-- Embedding of `handle_result` (mqtt_service.c lines 94-110): logs
only, no shared state change. -/
def handle_result (st : MqttState) : MqttState := st

/-- The MQTT events `mqtt_event_handler` switches on.  A
`MQTT_EVENT_DATA` carries its topic bytes, `data_len`,
`total_data_len`, and the cJSON parse result of its body. -/
inductive MqttEvent where
  | connected
  | disconnected
  | subscribed
  | errorEvent
  | mqttOther
  | dataEvent (topic : List Nat) (data_len total_data_len : Nat)
              (body : Option JsonDoc)
deriving DecidableEq, Repr

/-- Embedding of `mqtt_event_handler` (mqtt_service.c lines 114-161)
restricted to the shared QR state (logging and the `CONNECTED` case
subscriptions touch no shared state). -/
def mqtt_event_handler (st : MqttState) (ev : MqttEvent) : MqttState :=
  match ev with
  | .dataEvent topic dlen tlen body =>
      -- Only process complete (non-fragmented) messages.
      if dlen ≠ tlen then st
      else if topic_eq topic APP_MQTT_TOPIC_QR_SHOW then
        handle_qr_show st body
      else if topic_eq topic APP_MQTT_TOPIC_QR_HIDE then
        handle_qr_hide st
      else if topic_eq topic APP_MQTT_TOPIC_RESULT then
        handle_result st
      else st
  | _ => st

/-- Shared state after a list of MQTT events, oldest first, starting
from the zero-initialised statics. -/
def mqttRun (evs : List MqttEvent) : MqttState :=
  evs.foldl mqtt_event_handler mqttInitState

/-- Embedding of `mqtt_service_has_qr_data` (mqtt_service.c lines
189-192). -/
def mqtt_service_has_qr_data (st : MqttState) : Bool := st.s_has_qr

/- ════════════════════════════════════════════════════════════════════
   mqtt_service.c — critical-section traces over the one spinlock
   ════════════════════════════════════════════════════════════════════ -/

/-- Actions on the shared QR state and on the single spinlock `s_lock`
(the only `portMUX_TYPE` in the firmware): `portENTER_CRITICAL(&s_lock)`,
`portEXIT_CRITICAL(&s_lock)`, the store `s_qr = tmp`, and a store to
`s_has_qr`. -/
inductive MqttAction where
  | lockEnter
  | lockExit
  | writeQr (p : QrPayload)
  | writeHasQr (b : Bool)
deriving DecidableEq, Repr

/-- Trace of shared-state actions performed by `handle_qr_show`
(mqtt_service.c lines 53-83): nothing on any rejected message, and the
four-action critical section on an accepted one. -/
def handle_qr_show_trace (body : Option JsonDoc) : List MqttAction :=
  match body with
  | none => []
  | some root =>
      let tmp := parseQrPayload root
      if tmp.data = [] then []
      else [.lockEnter, .writeQr tmp, .writeHasQr true, .lockExit]

/-- Trace of shared-state actions performed by `handle_qr_hide`
(mqtt_service.c lines 85-92). -/
def handle_qr_hide_trace : List MqttAction :=
  [.lockEnter, .writeHasQr false, .lockExit]

/-- Checks a trace starting at lock depth `d`: every write to `s_qr` or
`s_has_qr` happens at positive depth (inside a critical section of
`s_lock`), exits match enters, and the trace ends back at depth 0. -/
def critOk : List MqttAction → Nat → Bool
  | [], d => d == 0
  | .lockEnter :: tr, d => critOk tr (d + 1)
  | .lockExit :: tr, d => d != 0 && critOk tr (d - 1)
  | .writeQr _ :: tr, d => d != 0 && critOk tr d
  | .writeHasQr _ :: tr, d => d != 0 && critOk tr d

/- ════════════════════════════════════════════════════════════════════
   touch_gt911.c — LVGL pointer read callback
   ════════════════════════════════════════════════════════════════════ -/

/-- The two LVGL input-device states the callback can report. -/
inductive LvIndevState where
  | released
  | pressed
deriving DecidableEq, Repr

/-- Embedding of the `lv_indev_data_t` fields the callback writes. -/
structure LvIndevData where
  state   : LvIndevState
  pointX  : Nat
  pointY  : Nat
deriving DecidableEq, Repr

/-- Embedding of `gt911_lvgl_read_cb` (touch_gt911.c lines 62-111).
Inputs abstract the two I2C transfers: `statusRead` is the outcome of
reading the status register (`none` = I2C error, otherwise the status
byte), `pointRead` the outcome of reading the 8-byte first touch point.
`prev` is the `lv_indev_data_t` as LVGL hands it in; fields the C code
does not assign keep their incoming values. -/
def gt911_lvgl_read_cb (statusRead : Option Nat)
    (pointRead : Option (List Nat)) (prev : LvIndevData) : LvIndevData :=
  -- data->state = LV_INDEV_STATE_RELEASED;
  let data := { prev with state := LvIndevState.released }
  match statusRead with
  | none => data
  | some status =>
      let status := status % 256
      let ready := status &&& 0x80 ≠ 0
      let touches := status &&& 0x0F
      if ¬ready ∨ touches = 0 then data
      else
        match pointRead with
        | none => data
        | some pt =>
            let b := fun i => pt.getD i 0 % 256
            let x := b 1 ||| (b 2 <<< 8)
            let y := b 3 ||| (b 4 <<< 8)
            -- Clamp to display resolution
            let x := if x ≥ APP_LCD_H_RES then APP_LCD_H_RES - 1 else x
            let y := if y ≥ APP_LCD_V_RES then APP_LCD_V_RES - 1 else y
            { state := LvIndevState.pressed, pointX := x, pointY := y }

/- ════════════════════════════════════════════════════════════════════
   ui.c — CRC-16/CCITT-FALSE and the static VietQR payload
   ════════════════════════════════════════════════════════════════════ -/

/-- One iteration of the inner loop of `crc16_ccitt` (ui.c lines
296-297): shift the 16-bit register left, xor in the polynomial 0x1021
when the bit shifted out was set. -/
def crc16_round (c : Nat) : Nat :=
  if c &&& 0x8000 ≠ 0 then ((c <<< 1) ^^^ 0x1021) % 65536
  else (c <<< 1) % 65536

/-- One iteration of the outer loop of `crc16_ccitt`: xor the next
input byte into the high half of the register, then run eight rounds. -/
def crc16_byte (crc b : Nat) : Nat :=
  Nat.repeat crc16_round 8 ((crc ^^^ ((b % 256) <<< 8)) % 65536)

/-- Embedding of `crc16_ccitt` (ui.c lines 291-300): fold over the
input bytes starting from 0xFFFF. -/
def crc16_ccitt (data : List Nat) : Nat :=
  data.foldl crc16_byte 0xFFFF

/-- The C string literal `VIETQR_BASE` (ui.c lines 280-287), its
adjacent pieces concatenated exactly as the compiler does. -/
def VIETQR_BASE : String :=
  "00020101021138540010A000000727" ++
  "0124000697042201100973202625" ++
  "0208QRIBFTTA" ++
  "5303704" ++
  "5802VN" ++
  "62230819Thanh toan tai quay" ++
  "6304"

/-- ASCII code of one uppercase hexadecimal digit, as `%X` prints
it. -/
def hexDigitUpper (n : Nat) : Nat :=
  if n % 16 < 10 then 48 + n % 16 else 55 + n % 16

/-- The four bytes `snprintf(.., 5, "%04X", crc)` appends for a 16-bit
value: its four uppercase hexadecimal digits, most significant
first. -/
def hex4Upper (v : Nat) : List Nat :=
  [hexDigitUpper (v / 4096), hexDigitUpper (v / 256),
   hexDigitUpper (v / 16), hexDigitUpper v]

/-- The bytes of `s_vietqr` as built by `ui_init` (ui.c lines
394-397): `strcpy` the base, CRC it over its `strlen`, append the four
hex digits at the end. -/
def s_vietqr : List Nat :=
  strBytes VIETQR_BASE ++ hex4Upper (crc16_ccitt (strBytes VIETQR_BASE))

/-- Modelled from the spec: the claimed reference algorithm
CRC-16/CCITT-FALSE, written from its published parameters — register
initialised to 0xFFFF, generator polynomial 0x1021, input consumed one
bit at a time most-significant bit first, no input or output
reflection, no final xor.  One step: the feedback bit is the xor of the
register MSB and the incoming bit; shift the register, and xor in the
polynomial when the feedback bit is set.  This definition is compared
against the implementation `crc16_ccitt` transcribed from ui.c. -/
def crc16_spec_step (c : Nat) (bit : Nat) : Nat :=
  let fb := (c >>> 15) % 2 ≠ bit % 2
  let c' := (c <<< 1) % 65536
  if fb then c' ^^^ 0x1021 else c'

/-- The eight bits of a byte, most significant first. -/
def byteBitsMSB (b : Nat) : List Nat :=
  [b >>> 7 % 2, b >>> 6 % 2, b >>> 5 % 2, b >>> 4 % 2,
   b >>> 3 % 2, b >>> 2 % 2, b >>> 1 % 2, b % 2]

/-- Modelled from the spec: bit-serial CRC-16/CCITT-FALSE of a byte
string, MSB-first within each byte, initial register 0xFFFF, no final
xor. -/
def crc16_ccitt_false_spec (data : List Nat) : Nat :=
  (data.flatMap fun b => byteBitsMSB (b % 256)).foldl crc16_spec_step 0xFFFF

/- ════════════════════════════════════════════════════════════════════
   Claim theorems
   ════════════════════════════════════════════════════════════════════ -/

/-- C1: Every invocation of `lvgl_flush_cb` first hands the colour
buffer to `esp_lcd_panel_draw_bitmap` over the entire 0,0..480,480
area, then takes the VSYNC binary semaphore (given from the `on_vsync`
ISR callback), and only then calls `lv_disp_flush_ready`; the display
is registered in LVGL direct mode over the two PSRAM framebuffers of
the panel (`num_fbs = 2`), so flush completion is never signalled to
LVGL before the draw_bitmap pointer swap has been issued and the VSYNC
wait performed. -/
theorem lcd_flush_vsync_order :
    lvgl_flush_cb =
      [.drawBitmap 0 0 APP_LCD_H_RES APP_LCD_V_RES,
       .vsyncSemTake 100, .flushReady] ∧
    APP_LCD_H_RES = 480 ∧ APP_LCD_V_RES = 480 ∧
    lvgl_flush_cb.getLast? = some .flushReady ∧
    lvgl_flush_cb.take 2 =
      [.drawBitmap 0 0 480 480, .vsyncSemTake 100] ∧
    on_vsync = [.vsyncSemGiveFromISR] ∧
    rgb_cfg.num_fbs = 2 ∧
    rgb_cfg.fb_in_psram = true ∧
    disp_drv.direct_mode = true ∧
    disp_drv.draw_buf_uses_both_fbs = true ∧
    disp_drv.draw_buf_px = APP_LCD_H_RES * APP_LCD_V_RES := by
  decide

/-- C2: `st7701_panel_init` is a fixed byte-for-byte script (its
embedding is a closed constant: the C function takes no argument and
reads no mutable state, so every call emits the same 9-bit frame
sequence).  The frame stream begins with software reset 0x01, then
enters Command2 BK0, BK1 and BK3 in that order via the 0xFF bank
selects — with no bank switch inside the three bank segments — exits
Command2, and ends with exactly INVOFF 0x20, COLMOD 0x3A parameter
0x50, Sleep Out 0x11, Display ON 0x29. -/
theorem st7701_init_fixed_script :
    st7701_init_frames.head? = some ⟨false, 0x01⟩ ∧
    st7701_init_frames.getLast? = some ⟨false, 0x29⟩ ∧
    ∃ bk0 bk1 bk3 : List Frame,
      st7701_init_frames =
        ⟨false, 0x01⟩ :: (bkSelect 0x10 ++ bk0 ++ bkSelect 0x11 ++ bk1 ++
          bkSelect 0x13 ++ bk3 ++ bkSelect 0x00 ++
          [⟨false, 0x20⟩, ⟨false, 0x3A⟩, ⟨true, 0x50⟩,
           ⟨false, 0x11⟩, ⟨false, 0x29⟩]) ∧
      (bk0 ++ bk1 ++ bk3).all (fun f => !isBankSwitchCmd f) = true := by
  refine ⟨by decide, by decide,
    (st7701_init_frames.drop 7).take 45,
    (st7701_init_frames.drop 58).take 127,
    (st7701_init_frames.drop 191).take 2,
    by decide, by decide⟩

/-- C10: The firmware drives a 480×480 RGB565 panel: `APP_LCD_H_RES`
and `APP_LCD_V_RES` both equal 480, `lcd_st7701_init` configures the
RGB panel with exactly these resolutions, a 16-bit data bus and 16 bits
per pixel, and the init script sends COLMOD 0x3A with parameter 0x50
immediately before Sleep Out and Display ON. -/
theorem panel_480x480_rgb565 :
    APP_LCD_H_RES = 480 ∧ APP_LCD_V_RES = 480 ∧
    rgb_cfg.timings.h_res = APP_LCD_H_RES ∧
    rgb_cfg.timings.v_res = APP_LCD_V_RES ∧
    rgb_cfg.data_width = 16 ∧
    rgb_cfg.bits_per_pixel = 16 ∧
    ∃ t : List Frame,
      st7701_init_frames =
        t ++ [⟨false, 0x3A⟩, ⟨true, 0x50⟩, ⟨false, 0x11⟩, ⟨false, 0x29⟩] := by
  refine ⟨rfl, rfl, rfl, rfl, rfl, rfl, st7701_init_frames.take 200, by decide⟩

/-- Helper: one handler step keeps the retry counter within the
budget. -/
theorem wifi_step_retry_le (s : WifiState) (e : WifiEvent)
    (h : s.s_retry_count ≤ APP_WIFI_MAX_RETRY) :
    ((wifi_event_handler s e).1).s_retry_count ≤ APP_WIFI_MAX_RETRY := by
  cases e with
  | staStart => exact h
  | staDisconnected =>
      by_cases hlt : s.s_retry_count < APP_WIFI_MAX_RETRY
      · simp [wifi_event_handler, hlt]; omega
      · simp [wifi_event_handler, hlt]; exact h
  | gotIp => simp [wifi_event_handler]
  | wifiOther => exact h

/-- Helper: the retry bound holds along any event list from any state
within the budget. -/
theorem wifi_foldl_retry_le (evs : List WifiEvent) :
    ∀ s : WifiState, s.s_retry_count ≤ APP_WIFI_MAX_RETRY →
      (evs.foldl (fun s e => (wifi_event_handler s e).1) s).s_retry_count ≤
        APP_WIFI_MAX_RETRY := by
  induction evs with
  | nil => intro s h; exact h
  | cons e tl ih =>
      intro s h
      exact ih _ (wifi_step_retry_le s e h)

/-- C3: For every WiFi event sequence the retry counter never exceeds
`APP_WIFI_MAX_RETRY` (10); a `STA_DISCONNECTED` event calls
`esp_wifi_connect` again (second component `true`) exactly while the
counter is strictly below the limit, incrementing it; at the limit a
disconnect triggers no reconnect attempt and leaves the counter; and
`IP_EVENT_STA_GOT_IP` resets the counter to 0. -/
theorem wifi_retry_counter_bounded (evs : List WifiEvent) :
    (wifiRun evs).s_retry_count ≤ APP_WIFI_MAX_RETRY ∧
    (∀ s : WifiState, s.s_retry_count < APP_WIFI_MAX_RETRY →
        wifi_event_handler s .staDisconnected =
          ({ s_connected := false, s_retry_count := s.s_retry_count + 1 },
           true)) ∧
    (∀ s : WifiState, APP_WIFI_MAX_RETRY ≤ s.s_retry_count →
        wifi_event_handler s .staDisconnected =
          ({ s with s_connected := false }, false)) ∧
    (∀ s : WifiState,
        (wifi_event_handler s .gotIp).1 =
          { s_connected := true, s_retry_count := 0 }) := by
  refine ⟨wifi_foldl_retry_le evs wifiInitState (by decide), ?_, ?_, ?_⟩
  · intro s hlt; simp [wifi_event_handler, hlt]
  · intro s hge; simp [wifi_event_handler, Nat.not_lt.mpr hge]
  · intro s; simp [wifi_event_handler]

/-- Witness for C3: the bound and the three step facts at concrete
states, discharging every hypothesis. -/
theorem wifi_retry_counter_bounded_witness :
    (wifiRun [.staStart, .staDisconnected, .gotIp]).s_retry_count ≤
      APP_WIFI_MAX_RETRY ∧
    wifi_event_handler ⟨false, 3⟩ .staDisconnected = (⟨false, 4⟩, true) ∧
    wifi_event_handler ⟨false, 10⟩ .staDisconnected = (⟨false, 10⟩, false) ∧
    (wifi_event_handler ⟨false, 7⟩ .gotIp).1 = ⟨true, 0⟩ :=
  ⟨(wifi_retry_counter_bounded [.staStart, .staDisconnected, .gotIp]).1,
   (wifi_retry_counter_bounded []).2.1 ⟨false, 3⟩ (by decide),
   (wifi_retry_counter_bounded []).2.2.1 ⟨false, 10⟩ (by decide),
   (wifi_retry_counter_bounded []).2.2.2 ⟨false, 7⟩⟩

/-- Helper: running one more event folds the handler once at the
end. -/
theorem wifiRun_append (evs : List WifiEvent) (e : WifiEvent) :
    wifiRun (evs ++ [e]) = (wifi_event_handler (wifiRun evs) e).1 := by
  simp [wifiRun, List.foldl_append]

/-- Helper: splitting `l ++ [e]` at an interior occurrence: either the
occurrence is the appended element itself, or it lies in `l` and the
tail keeps `e` as its last element. -/
theorem append_single_eq_append_cons {α : Type} {l pre suf : List α} {x e : α}
    (h : l ++ [e] = pre ++ x :: suf) :
    (suf = [] ∧ l = pre ∧ e = x) ∨
    ∃ suf', suf = suf' ++ [e] ∧ l = pre ++ x :: suf' := by
  rcases suf.eq_nil_or_concat with rfl | ⟨suf', e', rfl⟩
  · left
    obtain ⟨h1, h2⟩ := List.append_inj' h rfl
    exact ⟨rfl, h1, by injection h2⟩
  · right
    rw [List.concat_eq_append] at h
    rw [show pre ++ x :: (suf' ++ [e']) = (pre ++ x :: suf') ++ [e'] by simp] at h
    obtain ⟨h1, h2⟩ := List.append_inj' h rfl
    have he : e = e' := by injection h2
    exact ⟨suf', by rw [List.concat_eq_append, he], h1⟩

/-- Helper: appending an event that is neither `gotIp` nor
`staDisconnected` neither creates nor destroys a decomposition with a
`gotIp` followed by no disconnect. -/
theorem wifi_decomp_append_of_ne {l : List WifiEvent} {e : WifiEvent}
    (hne : e ≠ WifiEvent.gotIp) (hnd : e ≠ WifiEvent.staDisconnected) :
    (∃ pre suf, l ++ [e] = pre ++ WifiEvent.gotIp :: suf ∧
        WifiEvent.staDisconnected ∉ suf) ↔
    (∃ pre suf, l = pre ++ WifiEvent.gotIp :: suf ∧
        WifiEvent.staDisconnected ∉ suf) := by
  constructor
  · rintro ⟨pre, suf, h, hd⟩
    rcases append_single_eq_append_cons h with ⟨-, -, he⟩ | ⟨suf', rfl, hl⟩
    · exact absurd he hne
    · refine ⟨pre, suf', hl, fun hm => hd ?_⟩
      simp [hm]
  · rintro ⟨pre, suf, h, hd⟩
    refine ⟨pre, suf ++ [e], by rw [h]; simp, ?_⟩
    simp [List.mem_append, hd]
    exact fun he => hnd he.symm

/-- C8: `wifi_service_is_connected` is event-driven: it returns false
initially and after every `WIFI_EVENT_STA_DISCONNECTED`, and it returns
true exactly when an `IP_EVENT_STA_GOT_IP` event has occurred with no
subsequent disconnect event. -/
theorem wifi_connected_event_driven :
    wifi_service_is_connected (wifiRun []) = false ∧
    (∀ evs, wifi_service_is_connected
        (wifiRun (evs ++ [.staDisconnected])) = false) ∧
    (∀ evs, wifi_service_is_connected (wifiRun evs) = true ↔
        ∃ pre suf, evs = pre ++ WifiEvent.gotIp :: suf ∧
          WifiEvent.staDisconnected ∉ suf) := by
  refine ⟨rfl, ?_, ?_⟩
  · intro evs
    rw [wifiRun_append]
    by_cases h : (wifiRun evs).s_retry_count < APP_WIFI_MAX_RETRY <;>
      simp [wifi_event_handler, wifi_service_is_connected, h]
  · intro evs
    induction evs using List.reverseRecOn with
    | nil =>
        apply iff_of_false
        · decide
        · rintro ⟨pre, suf, h, -⟩
          simp at h
    | append_singleton l e ih =>
        rw [wifiRun_append]
        cases e with
        | gotIp =>
            simp only [wifi_event_handler, wifi_service_is_connected]
            exact iff_of_true trivial ⟨l, [], rfl, by simp⟩
        | staDisconnected =>
            apply iff_of_false
            · by_cases h : (wifiRun l).s_retry_count < APP_WIFI_MAX_RETRY <;>
                simp [wifi_event_handler, wifi_service_is_connected, h]
            · rintro ⟨pre, suf, h, hd⟩
              rcases append_single_eq_append_cons h with ⟨-, -, he⟩ | ⟨suf', rfl, -⟩
              · exact WifiEvent.noConfusion he
              · exact hd (by simp)
        | staStart =>
            rw [show (wifi_event_handler (wifiRun l) .staStart).1 = wifiRun l
              from rfl]
            rw [ih]
            exact (wifi_decomp_append_of_ne (by decide) (by decide)).symm
        | wifiOther =>
            rw [show (wifi_event_handler (wifiRun l) .wifiOther).1 = wifiRun l
              from rfl]
            rw [ih]
            exact (wifi_decomp_append_of_ne (by decide) (by decide)).symm

/-- Counterexample to C4 as stated: a fragmented message on the
`pos/qr/hide` topic (here `data_len` 3 of `total_data_len` 7) is
dropped by the event handler before topic dispatch, so after it
`mqtt_service_has_qr_data` still returns true — the claim says any
message on the hide topic makes it return false.  The state is reached
from boot by one valid `pos/qr/show` message. -/
theorem mqtt_hide_fragmented_keeps_flag :
    mqtt_service_has_qr_data
      (mqttRun
        [.dataEvent APP_MQTT_TOPIC_QR_SHOW 20 20
           (some (.obj [(keyQrData, .str (strBytes "DATA"))])),
         .dataEvent APP_MQTT_TOPIC_QR_HIDE 3 7 none]) = true := by
  decide

/-- C4 (amended): after processing a complete (non-fragmented) message
on `pos/qr/show` whose body parses as JSON with a non-empty string
member `qr_data`, `mqtt_service_has_qr_data` returns true; after
processing any complete (non-fragmented) message on `pos/qr/hide` it
returns false; and no other MQTT event changes the flag — non-data
events, fragmented data events, data events on other topics, and show
messages without a valid `qr_data` all leave it untouched. -/
theorem mqtt_qr_flag_event_driven :
    (∀ (st : MqttState) (len : Nat) (root : JsonDoc) (s : List Nat),
        cJSON_GetObjectItemCaseSensitive root keyQrData = some (.str s) →
        s ≠ [] →
        mqtt_service_has_qr_data
          (mqtt_event_handler st
            (.dataEvent APP_MQTT_TOPIC_QR_SHOW len len (some root))) = true) ∧
    (∀ (st : MqttState) (len : Nat) (body : Option JsonDoc),
        mqtt_event_handler st
          (.dataEvent APP_MQTT_TOPIC_QR_HIDE len len body) =
          { st with s_has_qr := false }) ∧
    (∀ (st : MqttState) (ev : MqttEvent),
        (ev = .connected ∨ ev = .disconnected ∨ ev = .subscribed ∨
         ev = .errorEvent ∨ ev = .mqttOther) →
        mqtt_event_handler st ev = st) ∧
    (∀ (st : MqttState) (topic : List Nat) (dlen tlen : Nat)
        (body : Option JsonDoc), dlen ≠ tlen →
        mqtt_event_handler st (.dataEvent topic dlen tlen body) = st) ∧
    (∀ (st : MqttState) (topic : List Nat) (len : Nat)
        (body : Option JsonDoc),
        topic ≠ APP_MQTT_TOPIC_QR_SHOW → topic ≠ APP_MQTT_TOPIC_QR_HIDE →
        mqtt_service_has_qr_data
            (mqtt_event_handler st (.dataEvent topic len len body)) =
          mqtt_service_has_qr_data st) ∧
    (∀ (st : MqttState) (len : Nat) (body : Option JsonDoc),
        (∀ root, body = some root →
          json_str root keyQrData QR_DATA_MAX = []) →
        mqtt_event_handler st
          (.dataEvent APP_MQTT_TOPIC_QR_SHOW len len body) = st) := by
  refine ⟨?_, ?_, ?_, ?_, ?_, ?_⟩
  · intro st len root s hfind hne
    have hshow : (parseQrPayload root).data ≠ [] := by
      simp [parseQrPayload, json_str, hfind, QR_DATA_MAX]
      exact hne
    simp [mqtt_event_handler, topic_eq, handle_qr_show,
      mqtt_service_has_qr_data, hshow]
  · intro st len body
    simp [mqtt_event_handler, topic_eq, handle_qr_hide,
      show APP_MQTT_TOPIC_QR_HIDE ≠ APP_MQTT_TOPIC_QR_SHOW by decide]
  · rintro st ev (rfl | rfl | rfl | rfl | rfl) <;> rfl
  · intro st topic dlen tlen body hne
    simp [mqtt_event_handler, hne]
  · intro st topic len body hs hh
    by_cases hr : topic = APP_MQTT_TOPIC_RESULT
    · subst hr
      simp [mqtt_event_handler, topic_eq, handle_result,
        show APP_MQTT_TOPIC_RESULT ≠ APP_MQTT_TOPIC_QR_SHOW from by decide,
        show APP_MQTT_TOPIC_RESULT ≠ APP_MQTT_TOPIC_QR_HIDE from by decide]
    · simp [mqtt_event_handler, topic_eq, hs, hh, hr]
  · intro st len body hrej
    cases body with
    | none => simp [mqtt_event_handler, topic_eq, handle_qr_show]
    | some root =>
        have : (parseQrPayload root).data = [] := hrej root rfl
        simp [mqtt_event_handler, topic_eq, handle_qr_show, this]

/-- Witness for C4: the show, hide, no-change and rejected-show parts
of the amended theorem instantiated at concrete states and events. -/
theorem mqtt_qr_flag_event_driven_witness :
    mqtt_service_has_qr_data
      (mqtt_event_handler mqttInitState
        (.dataEvent APP_MQTT_TOPIC_QR_SHOW 9 9
          (some (.obj [(keyQrData, .str (strBytes "X"))])))) = true ∧
    mqtt_event_handler ⟨⟨strBytes "X", [], []⟩, true⟩
      (.dataEvent APP_MQTT_TOPIC_QR_HIDE 2 2 none) =
      ⟨⟨strBytes "X", [], []⟩, false⟩ ∧
    mqtt_event_handler mqttInitState .connected = mqttInitState ∧
    mqtt_event_handler mqttInitState
      (.dataEvent APP_MQTT_TOPIC_QR_HIDE 3 7 none) = mqttInitState ∧
    mqtt_service_has_qr_data
      (mqtt_event_handler ⟨⟨strBytes "X", [], []⟩, true⟩
        (.dataEvent APP_MQTT_TOPIC_RESULT 2 2 none)) = true ∧
    mqtt_event_handler mqttInitState
      (.dataEvent APP_MQTT_TOPIC_QR_SHOW 2 2 (some (.obj []))) =
      mqttInitState :=
  ⟨mqtt_qr_flag_event_driven.1 mqttInitState 9
      (.obj [(keyQrData, .str (strBytes "X"))]) (strBytes "X")
      (by decide) (by decide),
   mqtt_qr_flag_event_driven.2.1 ⟨⟨strBytes "X", [], []⟩, true⟩ 2 none,
   mqtt_qr_flag_event_driven.2.2.1 mqttInitState .connected (Or.inl rfl),
   mqtt_qr_flag_event_driven.2.2.2.1 mqttInitState APP_MQTT_TOPIC_QR_HIDE
      3 7 none (by decide),
   (mqtt_qr_flag_event_driven.2.2.2.2.1 ⟨⟨strBytes "X", [], []⟩, true⟩
      APP_MQTT_TOPIC_RESULT 2 none (by decide) (by decide)).trans rfl,
   mqtt_qr_flag_event_driven.2.2.2.2.2 mqttInitState 2 (some (.obj []))
      (by intro root h; injection h with h; rw [← h]; rfl)⟩

/-- Helper: `json_str` always fits its destination buffer with room
for the terminating NUL. -/
theorem json_str_length (root : JsonDoc) (key : List Nat) (n : Nat) :
    (json_str root key n).length ≤ n - 1 := by
  unfold json_str
  cases h : cJSON_GetObjectItemCaseSensitive root key with
  | none => simp
  | some v =>
      cases v with
      | str s =>
          simp only [h, List.length_take]
          exact Nat.min_le_left _ _
      | nonString => simp [h]

/-- C5: The `pos/qr/show` path is all-or-nothing: a fragmented data
event, a body that fails to parse, or a parsed body without a non-empty
string `qr_data` leaves the stored payload and the flag completely
unchanged; otherwise payload and flag are updated together in one step,
with `amount` and `desc` defaulting to the empty string when absent or
non-string, and every field NUL-terminated within its declared buffer
(length at most `QR_*_MAX - 1`). -/
theorem qr_show_all_or_nothing :
    (∀ (st : MqttState) (topic : List Nat) (dlen tlen : Nat)
        (body : Option JsonDoc), dlen ≠ tlen →
        mqtt_event_handler st (.dataEvent topic dlen tlen body) = st) ∧
    (∀ st : MqttState, handle_qr_show st none = st) ∧
    (∀ (st : MqttState) (root : JsonDoc),
        json_str root keyQrData QR_DATA_MAX = [] →
        handle_qr_show st (some root) = st) ∧
    (∀ (st : MqttState) (root : JsonDoc),
        json_str root keyQrData QR_DATA_MAX ≠ [] →
        handle_qr_show st (some root) =
          { s_qr := parseQrPayload root, s_has_qr := true }) ∧
    (∀ root : JsonDoc,
        (parseQrPayload root).data.length ≤ QR_DATA_MAX - 1 ∧
        (parseQrPayload root).amount.length ≤ QR_AMOUNT_MAX - 1 ∧
        (parseQrPayload root).desc.length ≤ QR_DESC_MAX - 1) ∧
    (∀ root : JsonDoc,
        (∀ s, cJSON_GetObjectItemCaseSensitive root keyAmount ≠
          some (.str s)) →
        (parseQrPayload root).amount = []) ∧
    (∀ root : JsonDoc,
        (∀ s, cJSON_GetObjectItemCaseSensitive root keyDesc ≠
          some (.str s)) →
        (parseQrPayload root).desc = []) := by
  refine ⟨?_, fun st => rfl, ?_, ?_, ?_, ?_, ?_⟩
  · intro st topic dlen tlen body hne
    simp [mqtt_event_handler, hne]
  · intro st root h
    simp [handle_qr_show, parseQrPayload, h]
  · intro st root h
    simp [handle_qr_show, parseQrPayload, h]
  · intro root
    exact ⟨json_str_length root keyQrData QR_DATA_MAX,
           json_str_length root keyAmount QR_AMOUNT_MAX,
           json_str_length root keyDesc QR_DESC_MAX⟩
  · intro root h
    unfold parseQrPayload json_str
    cases hv : cJSON_GetObjectItemCaseSensitive root keyAmount with
    | none => simp [hv]
    | some v =>
        cases v with
        | str s => exact absurd hv (h s)
        | nonString => simp [hv]
  · intro root h
    unfold parseQrPayload json_str
    cases hv : cJSON_GetObjectItemCaseSensitive root keyDesc with
    | none => simp [hv]
    | some v =>
        cases v with
        | str s => exact absurd hv (h s)
        | nonString => simp [hv]

/-- Witness for C5: every branch of the all-or-nothing theorem at a
concrete state, with each hypothesis discharged. -/
theorem qr_show_all_or_nothing_witness :
    mqtt_event_handler ⟨⟨strBytes "OLD", [], []⟩, true⟩
      (.dataEvent APP_MQTT_TOPIC_QR_SHOW 1 9 none) =
      ⟨⟨strBytes "OLD", [], []⟩, true⟩ ∧
    handle_qr_show ⟨⟨strBytes "OLD", [], []⟩, true⟩ none =
      ⟨⟨strBytes "OLD", [], []⟩, true⟩ ∧
    handle_qr_show ⟨⟨strBytes "OLD", [], []⟩, true⟩
      (some (.obj [(keyQrData, .nonString)])) =
      ⟨⟨strBytes "OLD", [], []⟩, true⟩ ∧
    handle_qr_show ⟨⟨strBytes "OLD", [], []⟩, true⟩
      (some (.obj [(keyQrData, .str (strBytes "NEW"))])) =
      ⟨⟨strBytes "NEW", [], []⟩, true⟩ ∧
    (parseQrPayload (.obj [(keyQrData, .str (strBytes "NEW"))])).data.length ≤
      QR_DATA_MAX - 1 ∧
    (parseQrPayload (.obj [(keyQrData, .str (strBytes "NEW"))])).amount = [] ∧
    (parseQrPayload (.obj [(keyQrData, .str (strBytes "NEW"))])).desc = [] :=
  ⟨qr_show_all_or_nothing.1 ⟨⟨strBytes "OLD", [], []⟩, true⟩
      APP_MQTT_TOPIC_QR_SHOW 1 9 none (by decide),
   qr_show_all_or_nothing.2.1 ⟨⟨strBytes "OLD", [], []⟩, true⟩,
   qr_show_all_or_nothing.2.2.1 ⟨⟨strBytes "OLD", [], []⟩, true⟩
      (.obj [(keyQrData, .nonString)]) (by decide),
   ((qr_show_all_or_nothing.2.2.2.1 ⟨⟨strBytes "OLD", [], []⟩, true⟩
      (.obj [(keyQrData, .str (strBytes "NEW"))]) (by decide)).trans
      (by decide)),
   (qr_show_all_or_nothing.2.2.2.2.1
      (.obj [(keyQrData, .str (strBytes "NEW"))])).1,
   qr_show_all_or_nothing.2.2.2.2.2.1
      (.obj [(keyQrData, .str (strBytes "NEW"))])
      (by intro s hv; exact Option.noConfusion hv),
   qr_show_all_or_nothing.2.2.2.2.2.2
      (.obj [(keyQrData, .str (strBytes "NEW"))])
      (by intro s hv; exact Option.noConfusion hv)⟩

/-- Helper: running one more MQTT event folds the handler once at the
end. -/
theorem mqttRun_append (evs : List MqttEvent) (ev : MqttEvent) :
    mqttRun (evs ++ [ev]) = mqtt_event_handler (mqttRun evs) ev := by
  simp [mqttRun, List.foldl_append]

/-- Helper: any state a data event produces is either the incoming
state, the incoming state with the flag cleared, or a complete accepted
show payload with the flag set. -/
theorem mqtt_handler_cases (st : MqttState) (ev : MqttEvent) :
    mqtt_event_handler st ev = st ∨
    mqtt_event_handler st ev = { st with s_has_qr := false } ∨
    ∃ len root,
      ev = .dataEvent APP_MQTT_TOPIC_QR_SHOW len len (some root) ∧
      json_str root keyQrData QR_DATA_MAX ≠ [] ∧
      mqtt_event_handler st ev =
        { s_qr := parseQrPayload root, s_has_qr := true } := by
  cases ev with
  | dataEvent topic dlen tlen body =>
      by_cases hfrag : dlen ≠ tlen
      · exact Or.inl (by simp [mqtt_event_handler, hfrag])
      · push_neg at hfrag
        subst hfrag
        by_cases hshow : topic = APP_MQTT_TOPIC_QR_SHOW
        · subst hshow
          cases body with
          | none => exact Or.inl (by simp [mqtt_event_handler, topic_eq,
              handle_qr_show])
          | some root =>
              by_cases hrej : json_str root keyQrData QR_DATA_MAX = []
              · exact Or.inl (by simp [mqtt_event_handler, topic_eq,
                  handle_qr_show, parseQrPayload, hrej])
              · exact Or.inr (Or.inr ⟨dlen, root, rfl, hrej,
                  by simp [mqtt_event_handler, topic_eq, handle_qr_show,
                    parseQrPayload, hrej]⟩)
        · by_cases hhide : topic = APP_MQTT_TOPIC_QR_HIDE
          · subst hhide
            exact Or.inr (Or.inl (by
              simp [mqtt_event_handler, topic_eq, handle_qr_hide,
                show APP_MQTT_TOPIC_QR_HIDE ≠ APP_MQTT_TOPIC_QR_SHOW
                  from by decide]))
          · by_cases hres : topic = APP_MQTT_TOPIC_RESULT
            · subst hres
              exact Or.inl (by simp [mqtt_event_handler, topic_eq,
                handle_result,
                show APP_MQTT_TOPIC_RESULT ≠ APP_MQTT_TOPIC_QR_SHOW
                  from by decide,
                show APP_MQTT_TOPIC_RESULT ≠ APP_MQTT_TOPIC_QR_HIDE
                  from by decide])
            · exact Or.inl (by simp [mqtt_event_handler, topic_eq,
                hshow, hhide, hres])
  | connected => exact Or.inl rfl
  | disconnected => exact Or.inl rfl
  | subscribed => exact Or.inl rfl
  | errorEvent => exact Or.inl rfl
  | mqttOther => exact Or.inl rfl

/-- C7: Both writers of the shared QR state operate inside a critical
section of the single spinlock `s_lock`: every trace of
`handle_qr_show` and `handle_qr_hide` is well-nested and performs its
`s_qr` / `s_has_qr` stores only at positive lock depth; an accepted
show writes the payload and the flag inside one and the same critical
section; and consequently — critical sections of `s_lock` being the
units of interleaving for the guarded struct — every observable state
with the flag set carries the complete parsed payload of some show
message of the run, never a partially copied one. -/
theorem mqtt_qr_state_lock_guarded :
    (∀ body, critOk (handle_qr_show_trace body) 0 = true) ∧
    critOk handle_qr_hide_trace 0 = true ∧
    (∀ root, json_str root keyQrData QR_DATA_MAX ≠ [] →
        handle_qr_show_trace (some root) =
          [.lockEnter, .writeQr (parseQrPayload root),
           .writeHasQr true, .lockExit]) ∧
    (∀ evs, (mqttRun evs).s_has_qr = true →
        ∃ len root,
          MqttEvent.dataEvent APP_MQTT_TOPIC_QR_SHOW len len (some root)
            ∈ evs ∧
          (mqttRun evs).s_qr = parseQrPayload root) := by
  refine ⟨?_, rfl, ?_, ?_⟩
  · intro body
    cases body with
    | none => rfl
    | some root =>
        by_cases h : (parseQrPayload root).data = [] <;>
          simp [handle_qr_show_trace, h] <;> rfl
  · intro root h
    simp [handle_qr_show_trace, parseQrPayload, h]
  · intro evs
    induction evs using List.reverseRecOn with
    | nil => intro h; exact absurd h (by decide)
    | append_singleton l ev ih =>
        intro h
        rw [mqttRun_append] at h ⊢
        rcases mqtt_handler_cases (mqttRun l) ev with heq | heq | heq
        · rw [heq] at h ⊢
          obtain ⟨len, root, hmem, hqr⟩ := ih h
          exact ⟨len, root, by simp [hmem], hqr⟩
        · rw [heq] at h
          exact absurd h (by simp)
        · obtain ⟨len, root, rfl, -, heq⟩ := heq
          exact ⟨len, root, by simp, by rw [heq]⟩

/-- Witness for C7: the trace facts and the invariant at a concrete
run of one accepted show message. -/
theorem mqtt_qr_state_lock_guarded_witness :
    critOk (handle_qr_show_trace
      (some (.obj [(keyQrData, .str (strBytes "PAY"))]))) 0 = true ∧
    handle_qr_show_trace (some (.obj [(keyQrData, .str (strBytes "PAY"))])) =
      [.lockEnter,
       .writeQr (parseQrPayload (.obj [(keyQrData, .str (strBytes "PAY"))])),
       .writeHasQr true, .lockExit] ∧
    ∃ len root,
      MqttEvent.dataEvent APP_MQTT_TOPIC_QR_SHOW len len (some root) ∈
        [MqttEvent.dataEvent APP_MQTT_TOPIC_QR_SHOW 3 3
          (some (.obj [(keyQrData, .str (strBytes "PAY"))]))] ∧
      (mqttRun [MqttEvent.dataEvent APP_MQTT_TOPIC_QR_SHOW 3 3
          (some (.obj [(keyQrData, .str (strBytes "PAY"))]))]).s_qr =
        parseQrPayload root :=
  ⟨mqtt_qr_state_lock_guarded.1
      (some (.obj [(keyQrData, .str (strBytes "PAY"))])),
   mqtt_qr_state_lock_guarded.2.2.1
      (.obj [(keyQrData, .str (strBytes "PAY"))]) (by decide),
   mqtt_qr_state_lock_guarded.2.2.2
      [MqttEvent.dataEvent APP_MQTT_TOPIC_QR_SHOW 3 3
        (some (.obj [(keyQrData, .str (strBytes "PAY"))]))] (by decide)⟩

/-- C9: The GT911 read callback always assigns a definite state (its
reported state does not depend on the incoming one); it reports
RELEASED whenever the status-register I2C read fails, the ready bit is
clear, the touch count is zero, or the point I2C read fails; and
whenever it reports PRESSED the point is clamped into the display, so
x ≤ 479 and y ≤ 479 (coordinates are naturals, hence also ≥ 0)
regardless of the raw bytes read from the controller. -/
theorem gt911_read_cb_safe :
    (∀ statusRead pointRead prev prev',
        (gt911_lvgl_read_cb statusRead pointRead prev).state =
          (gt911_lvgl_read_cb statusRead pointRead prev').state) ∧
    (∀ pointRead prev,
        (gt911_lvgl_read_cb none pointRead prev).state = .released) ∧
    (∀ status pointRead prev, status % 256 &&& 0x80 = 0 →
        (gt911_lvgl_read_cb (some status) pointRead prev).state =
          .released) ∧
    (∀ status pointRead prev, status % 256 &&& 0x0F = 0 →
        (gt911_lvgl_read_cb (some status) pointRead prev).state =
          .released) ∧
    (∀ status prev,
        (gt911_lvgl_read_cb (some status) none prev).state = .released) ∧
    (∀ statusRead pointRead prev,
        (gt911_lvgl_read_cb statusRead pointRead prev).state = .pressed →
        (gt911_lvgl_read_cb statusRead pointRead prev).pointX ≤
            APP_LCD_H_RES - 1 ∧
        (gt911_lvgl_read_cb statusRead pointRead prev).pointY ≤
            APP_LCD_V_RES - 1) := by
  have hstate : ∀ statusRead pointRead prev,
      gt911_lvgl_read_cb statusRead pointRead prev =
        { prev with state := .released } ∨
      ∃ x y, x ≤ APP_LCD_H_RES - 1 ∧ y ≤ APP_LCD_V_RES - 1 ∧
        gt911_lvgl_read_cb statusRead pointRead prev =
          { state := .pressed, pointX := x, pointY := y } := by
    intro statusRead pointRead prev
    cases statusRead with
    | none => exact Or.inl rfl
    | some status =>
        by_cases hrt : ¬(status % 256 &&& 0x80 ≠ 0) ∨ status % 256 &&& 0x0F = 0
        · exact Or.inl (by simp only [gt911_lvgl_read_cb]; rw [if_pos hrt])
        · cases pointRead with
          | none =>
              refine Or.inl ?_
              simp only [gt911_lvgl_read_cb]
              rw [if_neg hrt]
          | some pt =>
              refine Or.inr ⟨_, _, ?_, ?_,
                by simp only [gt911_lvgl_read_cb]; rw [if_neg hrt]⟩
              · dsimp only
                split
                · decide
                · omega
              · dsimp only
                split
                · decide
                · omega
  have hind : ∀ statusRead pointRead (prev prev' : LvIndevData),
      (gt911_lvgl_read_cb statusRead pointRead prev).state =
        (gt911_lvgl_read_cb statusRead pointRead prev').state := by
    intro statusRead pointRead prev prev'
    cases statusRead with
    | none => rfl
    | some status =>
        by_cases hrt : ¬(status % 256 &&& 0x80 ≠ 0) ∨
            status % 256 &&& 0x0F = 0
        · simp only [gt911_lvgl_read_cb]
          rw [if_pos hrt, if_pos hrt]
        · cases pointRead with
          | none =>
              simp only [gt911_lvgl_read_cb]
              rw [if_neg hrt, if_neg hrt]
          | some pt =>
              simp only [gt911_lvgl_read_cb]
              rw [if_neg hrt, if_neg hrt]
  refine ⟨hind, fun pointRead prev => rfl, ?_, ?_, ?_, ?_⟩
  · intro status pointRead prev h
    have : ¬(status % 256 &&& 0x80 ≠ 0) ∨ status % 256 &&& 0x0F = 0 :=
      Or.inl (by simpa using h)
    cases pointRead with
    | none =>
        simp only [gt911_lvgl_read_cb]
        rw [if_pos this]
    | some pt =>
        simp only [gt911_lvgl_read_cb]
        rw [if_pos this]
  · intro status pointRead prev h
    have : ¬(status % 256 &&& 0x80 ≠ 0) ∨ status % 256 &&& 0x0F = 0 :=
      Or.inr h
    cases pointRead with
    | none =>
        simp only [gt911_lvgl_read_cb]
        rw [if_pos this]
    | some pt =>
        simp only [gt911_lvgl_read_cb]
        rw [if_pos this]
  · intro status prev
    by_cases hrt : ¬(status % 256 &&& 0x80 ≠ 0) ∨ status % 256 &&& 0x0F = 0
    · simp only [gt911_lvgl_read_cb]
      rw [if_pos hrt]
    · simp only [gt911_lvgl_read_cb]
      rw [if_neg hrt]
  · intro statusRead pointRead prev hpressed
    rcases hstate statusRead pointRead prev with h | ⟨x, y, hx, hy, h⟩
    · rw [h] at hpressed
      exact absurd hpressed (by simp)
    · rw [h] at hpressed ⊢
      exact ⟨hx, hy⟩

/-- Witness for C9: the callback at concrete inputs — an I2C error, a
not-ready status, a ready status with an out-of-range raw point that
gets clamped — discharging every hypothesis of the theorem. -/
theorem gt911_read_cb_safe_witness :
    (gt911_lvgl_read_cb none none ⟨.pressed, 7, 7⟩).state = .released ∧
    (gt911_lvgl_read_cb (some 0x00) none ⟨.pressed, 7, 7⟩).state =
      .released ∧
    (gt911_lvgl_read_cb (some 0x80) none ⟨.pressed, 7, 7⟩).state =
      .released ∧
    ((gt911_lvgl_read_cb (some 0x81)
        (some [0, 0xFF, 0x02, 0x05, 0x00, 0, 0, 0]) ⟨.released, 0, 0⟩).pointX ≤
      APP_LCD_H_RES - 1 ∧
     (gt911_lvgl_read_cb (some 0x81)
        (some [0, 0xFF, 0x02, 0x05, 0x00, 0, 0, 0]) ⟨.released, 0, 0⟩).pointY ≤
      APP_LCD_V_RES - 1) :=
  ⟨gt911_read_cb_safe.2.1 none ⟨.pressed, 7, 7⟩,
   gt911_read_cb_safe.2.2.1 0x00 none ⟨.pressed, 7, 7⟩ (by decide),
   gt911_read_cb_safe.2.2.2.1 0x80 none ⟨.pressed, 7, 7⟩ (by decide),
   gt911_read_cb_safe.2.2.2.2.2 (some 0x81)
      (some [0, 0xFF, 0x02, 0x05, 0x00, 0, 0, 0]) ⟨.released, 0, 0⟩
      (by decide)⟩

/-- Helper: the 16-bit left shift of the CRC register. -/
def shift1 (m : Nat) : Nat := (m <<< 1) % 65536

/-- Helper: the test `crc & 0x8000` of the C code reads bit 15. -/
theorem and_0x8000_iff (x : Nat) : (x &&& 0x8000 ≠ 0) ↔ x.testBit 15 = true := by
  rw [show (0x8000 : Nat) = 2 ^ 15 by norm_num, Nat.and_two_pow]
  cases h : x.testBit 15 <;> simp [h]

/-- Helper: xor with the 16-bit polynomial commutes with the 16-bit
truncation. -/
theorem mod_xor_const (x : Nat) :
    (x ^^^ 0x1021) % 65536 = x % 65536 ^^^ 0x1021 := by
  rw [show (65536 : Nat) = 2 ^ 16 by norm_num]
  apply Nat.eq_of_testBit_eq
  intro i
  simp only [Nat.testBit_mod_two_pow, Nat.testBit_xor]
  by_cases h : i < 16
  · simp [h]
  · have : (0x1021 : Nat).testBit i = false := by
      apply Nat.testBit_lt_two_pow
      calc (0x1021 : Nat) < 2 ^ 16 := by norm_num
        _ ≤ 2 ^ i := Nat.pow_le_pow_right (by norm_num) (by omega)
    simp [h, this]

/-- Helper: the truncated shift distributes over xor. -/
theorem shift1_xor (a b : Nat) : shift1 (a ^^^ b) = shift1 a ^^^ shift1 b := by
  unfold shift1
  rw [show (65536 : Nat) = 2 ^ 16 by norm_num]
  apply Nat.eq_of_testBit_eq
  intro i
  simp only [Nat.testBit_mod_two_pow, Nat.testBit_shiftLeft, Nat.testBit_xor]
  by_cases h16 : i < 16 <;> by_cases h1 : i ≥ 1 <;> simp [h16, h1]

/-- Helper: the low bit of the 15-shift is bit 15. -/
theorem shr15_mod2 (m : Nat) : (m >>> 15) % 2 = (m.testBit 15).toNat := by
  rw [Nat.testBit_to_div_mod, Nat.shiftRight_eq_div_pow]
  rcases Nat.mod_two_eq_zero_or_one (m / 2 ^ 15) with h | h <;>
    simp [show (2 : Nat) ^ 15 = 32768 from rfl] at h <;> simp [h]

/-- Key step: one implementation round on a register with the message
residue xor-ed in equals one bit-serial spec step fed the MSB of the
residue, with the shifted residue xor-ed back in. -/
theorem round_xor (c m : Nat) :
    crc16_round (c ^^^ m) =
      crc16_spec_step c ((m >>> 15) % 2) ^^^ shift1 m := by
  unfold crc16_round crc16_spec_step
  simp only [mod_xor_const, shr15_mod2]
  have hx : ((c ^^^ m) <<< 1) % 65536 = shift1 c ^^^ shift1 m := shift1_xor c m
  cases hc : c.testBit 15 <;> cases hm : m.testBit 15
  · rw [if_neg, if_neg]
    · exact hx
    · simp [shr15_mod2, hc, hm]
    · rw [and_0x8000_iff, Nat.testBit_xor, hc, hm]; decide
  · rw [if_pos, if_pos]
    · rw [hx, Nat.xor_assoc, Nat.xor_comm (shift1 m), ← Nat.xor_assoc]
      rfl
    · simp [shr15_mod2, hc, hm]
    · rw [and_0x8000_iff, Nat.testBit_xor, hc, hm]; decide
  · rw [if_pos, if_pos]
    · rw [hx, Nat.xor_assoc, Nat.xor_comm (shift1 m), ← Nat.xor_assoc]
      rfl
    · simp [shr15_mod2, hc, hm]
    · rw [and_0x8000_iff, Nat.testBit_xor, hc, hm]; decide
  · rw [if_neg, if_neg]
    · exact hx
    · simp [shr15_mod2, hc, hm]
    · rw [and_0x8000_iff, Nat.testBit_xor, hc, hm]; decide

/-- Helper: iterating a function one more time can peel the first
application instead of the last. -/
theorem repeat_succ_inner {α : Type} (f : α → α) (n : Nat) (a : α) :
    Nat.repeat f (n + 1) a = Nat.repeat f n (f a) := by
  induction n generalizing a with
  | zero => rfl
  | succ n ih =>
      show f (Nat.repeat f (n + 1) a) = Nat.repeat f (n + 1) (f a)
      rw [ih a]
      rfl

/-- The bits the message residue feeds into the register over `n`
truncated shifts, first bit first. -/
def shiftBits (m : Nat) : Nat → List Nat
  | 0 => []
  | n + 1 => (m >>> 15) % 2 :: shiftBits (shift1 m) n

/-- Invariant of the shift register: `n` implementation rounds on
`register xor residue` equal `n` bit-serial spec steps on the register
fed the residue bits, with the `n`-times-shifted residue xor-ed back
in. -/
theorem repeat_round_eq (n : Nat) :
    ∀ c m : Nat,
      Nat.repeat crc16_round n (c ^^^ m) =
        ((shiftBits m n).foldl crc16_spec_step c) ^^^
          Nat.repeat shift1 n m := by
  induction n with
  | zero => intro c m; rfl
  | succ n ih =>
      intro c m
      rw [repeat_succ_inner, repeat_succ_inner, round_xor,
        show shiftBits m (n + 1) =
          (m >>> 15) % 2 :: shiftBits (shift1 m) n from rfl,
        List.foldl_cons]
      exact ih (crc16_spec_step c ((m >>> 15) % 2)) (shift1 m)

/-- Helper: xor keeps 16-bit values 16-bit. -/
theorem xor_lt_65536 {a b : Nat} (ha : a < 65536) (hb : b < 65536) :
    a ^^^ b < 65536 := by
  have h : (65536 : Nat) = 2 ^ 16 := by norm_num
  rw [h] at ha hb ⊢
  exact Nat.xor_lt_two_pow ha hb

/-- Helper: a byte placed in the high half of the register feeds
exactly its eight bits, MSB first. -/
theorem shiftBits_shl8 (b : Nat) (hb : b < 256) :
    shiftBits (b <<< 8) 8 = byteBitsMSB b := by
  interval_cases b <;> rfl

/-- Helper: after eight truncated shifts the byte residue is gone. -/
theorem repeat_shift1_shl8 (b : Nat) (hb : b < 256) :
    Nat.repeat shift1 8 (b <<< 8) = 0 := by
  interval_cases b <;> rfl

/-- One byte of the implementation loop equals eight bit-serial spec
steps, MSB first. -/
theorem crc16_byte_eq_bits (crc b : Nat) (hc : crc < 65536) :
    crc16_byte crc b = (byteBitsMSB (b % 256)).foldl crc16_spec_step crc := by
  have hb : b % 256 < 256 := Nat.mod_lt _ (by norm_num)
  have hm : (b % 256) <<< 8 < 65536 := by
    rw [Nat.shiftLeft_eq]
    have : (b % 256) * 2 ^ 8 ≤ 255 * 2 ^ 8 :=
      Nat.mul_le_mul_right _ (by omega)
    omega
  unfold crc16_byte
  rw [Nat.mod_eq_of_lt (xor_lt_65536 hc hm), repeat_round_eq,
    shiftBits_shl8 _ hb, repeat_shift1_shl8 _ hb, Nat.xor_zero]

/-- Helper: every round leaves a 16-bit register. -/
theorem crc16_round_lt (c : Nat) : crc16_round c < 65536 := by
  unfold crc16_round
  split <;> exact Nat.mod_lt _ (by norm_num)

/-- Helper: every byte step leaves a 16-bit register. -/
theorem crc16_byte_lt (c b : Nat) : crc16_byte c b < 65536 :=
  crc16_round_lt _

/-- The byte-level fold equals the bit-level fold from any 16-bit
seed. -/
theorem foldl_crc16_byte_eq (data : List Nat) :
    ∀ c, c < 65536 →
      data.foldl crc16_byte c =
        (data.flatMap fun b => byteBitsMSB (b % 256)).foldl
          crc16_spec_step c := by
  induction data with
  | nil => intro c hc; rfl
  | cons b tl ih =>
      intro c hc
      rw [List.foldl_cons, List.flatMap_cons, List.foldl_append,
        ← crc16_byte_eq_bits c b hc]
      exact ih _ (crc16_byte_lt c b)

/-- The implementation computes the bit-serial CRC-16/CCITT-FALSE. -/
theorem crc16_ccitt_eq_spec (data : List Nat) :
    crc16_ccitt data = crc16_ccitt_false_spec data :=
  foldl_crc16_byte_eq data 0xFFFF (by norm_num)

/-- C6: `crc16_ccitt` computes CRC-16/CCITT-FALSE — it agrees with the
bit-serial reference (initial value 0xFFFF, polynomial 0x1021,
MSB-first, no reflection, no final xor) on every input, and matches the
published check value 0x29B1 on "123456789" — and `ui_init` builds
`s_vietqr` as exactly `VIETQR_BASE` followed by the four uppercase hex
digits of `crc16_ccitt` applied to `VIETQR_BASE`; hence the completed
payload ends with a correct CRC over its own prefix, that prefix ends
with the tag-63 header "6304", and the result fits the 128-byte
buffer. -/
theorem crc16_ccitt_false_and_vietqr :
    (∀ data, crc16_ccitt data = crc16_ccitt_false_spec data) ∧
    crc16_ccitt (strBytes "123456789") = 0x29B1 ∧
    s_vietqr = strBytes VIETQR_BASE ++
      hex4Upper (crc16_ccitt (strBytes VIETQR_BASE)) ∧
    (∃ p, s_vietqr = p ++ hex4Upper (crc16_ccitt p) ∧
       ∃ q, p = q ++ strBytes "6304") ∧
    s_vietqr.length ≤ 127 :=
  ⟨crc16_ccitt_eq_spec, by decide, rfl,
   ⟨strBytes VIETQR_BASE, rfl, (strBytes VIETQR_BASE).take 110, by decide⟩,
   by decide⟩
